import Mathlib

/-
Verification of the kw2graph single-page client.

The repository holds two iterations of the same React client:
  * src/app/src/app/page.tsx        -- earlier version: no graph filters, no
                                       timeout on any request;
  * src/unnamed/part_001            -- later version: min-score / entity-type /
                                       IAB-category filters on the show-graph
                                       call and a 120000 ms timeout on the
                                       analyze call.

The definitions below shallowly embed the later client (part_001); where the
two versions differ in a way a claim depends on (request timeouts), both
versions' request configurations are embedded, with names saying which file
they come from.  JavaScript numbers that the client only ever produces via
integer parsing are modelled as Int; scores are modelled as Rat (their exact
floating-point rendering is never relevant to a claim, only which query keys
are present).
-/

namespace Kw2graph

/-- Wire DTO: `interface Candidate { videoId; snippet: { title } }`. -/
structure Snippet where
  title : String
deriving DecidableEq

structure Candidate where
  videoId : String
  snippet : Snippet
deriving DecidableEq

/-- Wire DTO: `interface CandidateResponse { seed_keyword; candidates }`. -/
structure CandidateResponse where
  seed_keyword : String
  candidates : List Candidate
deriving DecidableEq

/-- `entity_type: 'Proper' | 'General'` on an analyze result item. -/
inductive EntityType where
  | Proper
  | General
deriving DecidableEq

/-- Wire DTO: `interface AnalyzeKeywordsOutputItem` (part_001 shape, with
`iab_categories` and `entity_type`). -/
structure AnalyzeKeywordsOutputItem where
  keyword : String
  score : Rat
  iab_categories : List String
  entity_type : EntityType
deriving DecidableEq

/-- Wire DTO: `interface AnalyzeKeywordsOutput { seed_keyword; results }`. -/
structure AnalyzeKeywordsOutput where
  seed_keyword : String
  results : List AnalyzeKeywordsOutputItem
deriving DecidableEq

/-- Wire DTO: `interface CreateGraphOutput { result: boolean }`. -/
structure CreateGraphOutput where
  result : Bool
deriving DecidableEq

/-- One element of `CreateGraphInput.children` (part_001 shape). -/
structure CreateGraphChild where
  keyword : String
  score : Rat
  iab_categories : List String
  entity_type : EntityType
deriving DecidableEq

/-- Wire DTO: `interface CreateGraphInput { seed_keyword; children }`. -/
structure CreateGraphInput where
  seed_keyword : String
  children : List CreateGraphChild
deriving DecidableEq

/-- Wire DTO: `interface GraphNode` (part_001 shape). -/
structure GraphNode where
  id : String
  label : String
  group : String
  entity_type : String
  iab_categories : List String
deriving DecidableEq

/-- Wire DTO: `interface GraphEdge`. -/
structure GraphEdge where
  id : String
  from_node : String
  to_node : String
  score : Rat
deriving DecidableEq

/-- Wire DTO: `interface ShowGraphOutput { nodes; edges }`. -/
structure ShowGraphOutput where
  nodes : List GraphNode
  edges : List GraphEdge
deriving DecidableEq

/-- The `entityTypeFilter` state: `'all' | 'Proper' | 'General'`. -/
inductive EntityTypeFilter where
  | all
  | Proper
  | General
deriving DecidableEq

/-- The string value the client would put in the query for an entity-type
filter (the literal option values of the select input). -/
def entityTypeFilterStr : EntityTypeFilter → String
  | .all => "all"
  | .Proper => "Proper"
  | .General => "General"

/-- The `createStatus` state: `'idle' | 'success' | 'failure'`. -/
inductive CreateStatus where
  | idle
  | success
  | failure
deriving DecidableEq

/-- The view state of the `Home` component (part_001): one field per
`useState`, plus the four `useTransition` pending flags. -/
structure ClientState where
  keyword : String
  maxDepth : Int
  minScore : Rat
  entityTypeFilter : EntityTypeFilter
  iabCategoryFilter : String
  candidateData : Option CandidateResponse
  analyzeData : Option AnalyzeKeywordsOutput
  graphData : Option ShowGraphOutput
  error : Option String
  isPending : Bool
  isAnalyzePending : Bool
  isCreatePending : Bool
  isGraphPending : Bool
  createStatus : CreateStatus
deriving DecidableEq

/-- The initial `useState` values: keyword `''`, maxDepth `2`,
minScore `0.5`, entityTypeFilter `'all'`, iabCategoryFilter `''`, all data
and error `null`, all pending flags false, createStatus `'idle'`. -/
def initialState : ClientState :=
  { keyword := ""
    maxDepth := 2
    minScore := 1/2
    entityTypeFilter := .all
    iabCategoryFilter := ""
    candidateData := none
    analyzeData := none
    graphData := none
    error := none
    isPending := false
    isAnalyzePending := false
    isCreatePending := false
    isGraphPending := false
    createStatus := .idle }

/-- JavaScript `String.prototype.trim()`: drop whitespace from both ends.
Defined structurally over the character list so that concrete instances
evaluate inside the kernel. -/
def jsTrim (s : String) : String :=
  String.mk (((s.toList.dropWhile Char.isWhitespace).reverse.dropWhile
    Char.isWhitespace).reverse)

/-- The information an `AxiosError` carries as consumed by
`handleAxiosError`: `response?.status`, `response?.data` (modelled as an
optional string body) and `message`. -/
structure AxiosErrorInfo where
  status : Option Int
  data : Option String
  message : String
deriving DecidableEq

/-- A thrown value in a fetch `catch` block: either an axios error or any
other thrown value (whose `message` exists just when it is an `Error`). -/
inductive FetchError where
  | axiosErr (info : AxiosErrorInfo)
  | otherErr (message : Option String)
deriving DecidableEq

/-- `(${status})` in a template literal renders an absent status as the
string `undefined`. -/
def statusText : Option Int → String
  | some n => toString n
  | none => "undefined"

/-- `handleAxiosError(err, apiName)`: builds the error string stored in the
`error` state.  `data ? JSON.stringify(data) : axiosError.message` is
modelled on the optional string body (absent or empty body is falsy). -/
def handleAxiosError (err : FetchError) (apiName : String) : String :=
  match err with
  | .axiosErr info =>
    let dataPart :=
      match info.data with
      | some d => if d = "" then info.message else d
      | none => info.message
    apiName ++ " APIリクエスト失敗: HTTPエラー (" ++ statusText info.status
      ++ "): " ++ dataPart
  | .otherErr msg =>
    match msg with
    | some m => "予期せぬエラー: " ++ m
    | none => "予期せぬエラー: 不明なエラー"

/-- The synchronous prefix of `fetchCandidate`: `setError(null);
setCandidateData(null); setAnalyzeData(null); setGraphData(null);
setCreateStatus('idle')`. -/
def fetchCandidateBegin (st : ClientState) : ClientState :=
  { st with
    error := none
    candidateData := none
    analyzeData := none
    graphData := none
    createStatus := .idle }

/-- The synchronous prefix of `fetchAnalyze`: `setAnalyzeData(null);
setGraphData(null); setCreateStatus('idle'); setError(null)`. -/
def fetchAnalyzeBegin (st : ClientState) : ClientState :=
  { st with
    analyzeData := none
    graphData := none
    createStatus := .idle
    error := none }

/-- The synchronous prefix of `fetchCreateGraph`: `setCreateStatus('idle');
setError(null)` — note it does not touch `graphData`. -/
def fetchCreateGraphBegin (st : ClientState) : ClientState :=
  { st with
    createStatus := .idle
    error := none }

/-- The synchronous prefix of `fetchShowGraph`: `setGraphData(null);
setError(null); setCreateStatus('idle')`. -/
def fetchShowGraphBegin (st : ClientState) : ClientState :=
  { st with
    graphData := none
    error := none
    createStatus := .idle }

/-- The body POSTed by `fetchCandidate`:
`{ index: 'videos', field: 'snippet.title', keyword: kw }`. -/
structure CandidatePayload where
  index : String
  field : String
  keyword : String
deriving DecidableEq

def candidatePayload (kw : String) : CandidatePayload :=
  { index := "videos", field := "snippet.title", keyword := kw }

/-- The body POSTed by `fetchAnalyze`:
`{ seed_keyword: seedKeyword, children: titles }`. -/
structure AnalyzePayload where
  seed_keyword : String
  children : List String
deriving DecidableEq

/-- The body POSTed by `fetchCreateGraph` (part_001): children carry
keyword, score, iab_categories and entity_type copied from the analyze
results, in order. -/
def createGraphPayload (data : AnalyzeKeywordsOutput) : CreateGraphInput :=
  { seed_keyword := data.seed_keyword
    children := data.results.map (fun item =>
      { keyword := item.keyword
        score := item.score
        iab_categories := item.iab_categories
        entity_type := item.entity_type }) }

/-- `fetchCandidate(kw)` as a state transition on the settled outcome of the
awaited POST: success stores the response, the catch branch stores the
`handleAxiosError` message. -/
def fetchCandidate (st : ClientState) (kw : String)
    (outcome : Except FetchError CandidateResponse) : ClientState :=
  let payload := candidatePayload kw
  let st1 := fetchCandidateBegin st
  match outcome with
  | .ok r => { st1 with candidateData := some r }
  | .error e =>
    let _ := payload
    { st1 with error := some (handleAxiosError e "Candidate") }

/-- `fetchAnalyze(seedKeyword, titles)` as a state transition on the settled
outcome of the awaited POST. -/
def fetchAnalyze (st : ClientState) (seedKeyword : String)
    (titles : List String)
    (outcome : Except FetchError AnalyzeKeywordsOutput) : ClientState :=
  let payload : AnalyzePayload := { seed_keyword := seedKeyword, children := titles }
  let st1 := fetchAnalyzeBegin st
  match outcome with
  | .ok r => { st1 with analyzeData := some r }
  | .error e =>
    let _ := payload
    { st1 with error := some (handleAxiosError e "Analyze") }

/-- `fetchCreateGraph(data)` as a state transition on the settled outcome of
the awaited POST: `result === true` gives success; any other response value
gives failure with the fixed error message; a thrown error gives failure
with the `handleAxiosError` message. -/
def fetchCreateGraph (st : ClientState) (data : AnalyzeKeywordsOutput)
    (outcome : Except FetchError CreateGraphOutput) : ClientState :=
  let payload := createGraphPayload data
  let st1 := fetchCreateGraphBegin st
  match outcome with
  | .ok r =>
    if r.result = true then
      { st1 with createStatus := .success }
    else
      { st1 with createStatus := .failure
                 error := some "グラフ作成APIが失敗を返しました。" }
  | .error e =>
    let _ := payload
    { st1 with createStatus := .failure
               error := some (handleAxiosError e "Create Graph") }

/-- The `URLSearchParams` built by `fetchShowGraph` (part_001), as an ordered
key/value list: `seed_keyword`, `max_depth` and `min_score` are passed to the
constructor unconditionally; `entity_type` is `set` only when the filter is
not `'all'`; `iab_category` only when the trimmed filter text is non-empty. -/
def showGraphParams (seedKeyword : String) (depth : Int) (score : Rat)
    (entity : EntityTypeFilter) (iab : String) : List (String × String) :=
  [("seed_keyword", seedKeyword),
   ("max_depth", toString depth),
   ("min_score", toString score)]
  ++ (if entity ≠ .all then [("entity_type", entityTypeFilterStr entity)] else [])
  ++ (if jsTrim iab ≠ "" then [("iab_category", jsTrim iab)] else [])

/-- `fetchShowGraph(seedKeyword, depth, score, entity, iab)` as a state
transition on the settled outcome of the awaited GET. -/
def fetchShowGraph (st : ClientState) (seedKeyword : String) (depth : Int)
    (score : Rat) (entity : EntityTypeFilter) (iab : String)
    (outcome : Except FetchError ShowGraphOutput) : ClientState :=
  let params := showGraphParams seedKeyword depth score entity iab
  let st1 := fetchShowGraphBegin st
  match outcome with
  | .ok r => { st1 with graphData := some r }
  | .error e =>
    let _ := params
    { st1 with error := some (handleAxiosError e "Show Graph") }

/-- Guard message of `handleGetCandidate`. -/
def candidateGuardMsg : String := "キーワードを入力してください。"

/-- Guard message of `handleAnalyze`. -/
def analyzeGuardMsg : String :=
  "Analyzeを実行するには、先にCandidate検索を実行し、結果を取得してください。"

/-- Guard message of `handleCreateGraph`. -/
def createGuardMsg : String :=
  "Create Graphを実行するには、Analyze検索を実行し、結果を取得してください。"

/-- Guard message of `handleShowGraph`. -/
def showGraphGuardMsg : String :=
  "グラフ表示を実行するには、検索キーワードを入力してください。"

/-- `handleGetCandidate`: with a blank (trimmed-empty) keyword it only sets
the error; otherwise it starts `fetchCandidate(keyword)`, here reported as
the POSTed payload. -/
def handleGetCandidate (st : ClientState) :
    ClientState × Option CandidatePayload :=
  if jsTrim st.keyword = "" then
    ({ st with error := some candidateGuardMsg }, none)
  else
    (st, some (candidatePayload st.keyword))

/-- `handleAnalyze`: with `candidateData` null or an empty candidate list it
only sets the error; otherwise it starts
`fetchAnalyze(candidateData.seed_keyword, titles)`, here reported as the
POSTed payload. -/
def handleAnalyze (st : ClientState) : ClientState × Option AnalyzePayload :=
  match st.candidateData with
  | none => ({ st with error := some analyzeGuardMsg }, none)
  | some cd =>
    if cd.candidates.length = 0 then
      ({ st with error := some analyzeGuardMsg }, none)
    else
      (st, some { seed_keyword := cd.seed_keyword
                  children := cd.candidates.map (fun c => c.snippet.title) })

/-- `handleCreateGraph`: with `analyzeData` null or an empty results list it
only sets the error; otherwise it starts `fetchCreateGraph(analyzeData)`,
here reported as the analyze data handed to the fetch. -/
def handleCreateGraph (st : ClientState) :
    ClientState × Option AnalyzeKeywordsOutput :=
  match st.analyzeData with
  | none => ({ st with error := some createGuardMsg }, none)
  | some ad =>
    if ad.results.length = 0 then
      ({ st with error := some createGuardMsg }, none)
    else
      (st, some ad)

/-- The arguments `handleShowGraph` passes to `fetchShowGraph` (part_001). -/
structure ShowGraphArgs where
  seedKeyword : String
  depth : Int
  score : Rat
  entity : EntityTypeFilter
  iab : String
deriving DecidableEq

/-- `handleShowGraph`: with a blank (trimmed-empty) keyword it only sets the
error; otherwise it starts `fetchShowGraph(keyword, maxDepth, minScore,
entityTypeFilter, iabCategoryFilter)` unconditionally. -/
def handleShowGraph (st : ClientState) : ClientState × Option ShowGraphArgs :=
  if jsTrim st.keyword = "" then
    ({ st with error := some showGraphGuardMsg }, none)
  else
    (st, some { seedKeyword := st.keyword
                depth := st.maxDepth
                score := st.minScore
                entity := st.entityTypeFilter
                iab := st.iabCategoryFilter })

/-- `disabled` expression of the Get Candidate button:
`isPending || !keyword.trim()`. -/
def getCandidateButtonDisabled (st : ClientState) : Bool :=
  st.isPending || jsTrim st.keyword == ""

/-- `disabled` expression of the Analyze button: `!candidateData ||
isAnalyzePending || isPending || isCreatePending || isGraphPending`. -/
def analyzeButtonDisabled (st : ClientState) : Bool :=
  st.candidateData.isNone || st.isAnalyzePending || st.isPending
    || st.isCreatePending || st.isGraphPending

/-- `disabled` expression of the Create Graph button: `!analyzeData ||
isCreatePending || isPending || isAnalyzePending || isGraphPending`. -/
def createGraphButtonDisabled (st : ClientState) : Bool :=
  st.analyzeData.isNone || st.isCreatePending || st.isPending
    || st.isAnalyzePending || st.isGraphPending

/-- `disabled` expression of the Show Graph button: `!keyword.trim() ||
isGraphPending || isPending || isAnalyzePending || isCreatePending`. -/
def showGraphButtonDisabled (st : ClientState) : Bool :=
  jsTrim st.keyword == "" || st.isGraphPending || st.isPending
    || st.isAnalyzePending || st.isCreatePending

/-- Value of the leading decimal-digit run, most significant first. -/
def digitsValue (cs : List Char) : Nat :=
  cs.foldl (fun a c => a * 10 + (c.toNat - 48)) 0

/-- `parseInt(s, 10)` on an (optionally signed) digit sequence: `none` plays
the role of `NaN`. -/
def jsParseInt10Core (cs : List Char) : Option Int :=
  let ds := cs.takeWhile (fun c => c.isDigit)
  if ds.isEmpty then none else some (Int.ofNat (digitsValue ds))

/-- `parseInt(s, 10)`: skip leading whitespace, read an optional sign and
the longest run of decimal digits; `NaN` (here `none`) when no digit
follows. -/
def jsParseInt10 (s : String) : Option Int :=
  let cs := s.toList.dropWhile (fun c => c.isWhitespace)
  match cs with
  | [] => none
  | c :: rest =>
    if c = '+' then jsParseInt10Core rest
    else if c = '-' then (jsParseInt10Core rest).map (fun n => -n)
    else jsParseInt10Core (c :: rest)

/-- `handleMaxDepthChange`: update `maxDepth` only when the parsed input is
a number `>= 0`; an empty input resets it to `0`; anything else leaves the
state unchanged. -/
def handleMaxDepthChange (input : String) (cur : Int) : Int :=
  match jsParseInt10 input with
  | some v => if 0 ≤ v then v else if input = "" then 0 else cur
  | none => if input = "" then 0 else cur

/-- Minimal axios request configuration the client passes: the JSON headers
and, when present, the `timeout` option in milliseconds. -/
structure RequestConfig where
  contentType : String
  timeout : Option Nat
deriving DecidableEq

/-- Config of the candidate POST in src/unnamed/part_001: headers only. -/
def part001CandidateConfig : RequestConfig :=
  { contentType := "application/json", timeout := none }

/-- Config of the analyze POST in src/unnamed/part_001: headers plus
`timeout: 120000`. -/
def part001AnalyzeConfig : RequestConfig :=
  { contentType := "application/json", timeout := some 120000 }

/-- Config of the create POST in src/unnamed/part_001: headers only. -/
def part001CreateConfig : RequestConfig :=
  { contentType := "application/json", timeout := none }

/-- Config of the show-graph GET in src/unnamed/part_001: headers only. -/
def part001ShowGraphConfig : RequestConfig :=
  { contentType := "application/json", timeout := none }

/-- Config of the candidate POST in src/app/src/app/page.tsx: headers
only. -/
def pageTsxCandidateConfig : RequestConfig :=
  { contentType := "application/json", timeout := none }

/-- Config of the analyze POST in src/app/src/app/page.tsx: headers only —
this earlier version sets no timeout on the analyze call. -/
def pageTsxAnalyzeConfig : RequestConfig :=
  { contentType := "application/json", timeout := none }

/-- Config of the create POST in src/app/src/app/page.tsx: headers only. -/
def pageTsxCreateConfig : RequestConfig :=
  { contentType := "application/json", timeout := none }

/-- Config of the show-graph GET in src/app/src/app/page.tsx: headers
only. -/
def pageTsxShowGraphConfig : RequestConfig :=
  { contentType := "application/json", timeout := none }

/-- Sample candidate item used in closed instantiations. -/
def exCandidate : Candidate := { videoId := "v1", snippet := { title := "Title One" } }

/-- Sample non-empty candidate response. -/
def exCandidateResponse : CandidateResponse :=
  { seed_keyword := "cook", candidates := [exCandidate] }

/-- Sample candidate response with an empty candidate list. -/
def exEmptyCandidateResponse : CandidateResponse :=
  { seed_keyword := "cook", candidates := [] }

/-- Sample analyze result item. -/
def exAnalyzeItem : AnalyzeKeywordsOutputItem :=
  { keyword := "recipe", score := 9/10, iab_categories := ["Food"],
    entity_type := .General }

/-- Sample non-empty analyze output. -/
def exAnalyze : AnalyzeKeywordsOutput :=
  { seed_keyword := "cook", results := [exAnalyzeItem] }

/-- Sample analyze output with an empty results list. -/
def exEmptyAnalyze : AnalyzeKeywordsOutput :=
  { seed_keyword := "cook", results := [] }

/-- Sample show-graph output with one node. -/
def exGraph : ShowGraphOutput :=
  { nodes := [{ id := "n1", label := "cook", group := "seed",
                entity_type := "General", iab_categories := ["Food"] }]
    edges := [] }

/-- A state holding a previously fetched graph (and a keyword). -/
def exStateWithGraph : ClientState :=
  { initialState with keyword := "cook", graphData := some exGraph }

/-- A state whose candidate response has an empty candidate list and no
pending request. -/
def exStateEmptyCandidates : ClientState :=
  { initialState with keyword := "cook",
                      candidateData := some exEmptyCandidateResponse }

/-- A state with one fetched candidate. -/
def exStateWithCandidates : ClientState :=
  { initialState with keyword := "cook",
                      candidateData := some exCandidateResponse }

/-- A state whose analyze output has an empty results list and no pending
request. -/
def exStateEmptyAnalyze : ClientState :=
  { initialState with keyword := "cook", analyzeData := some exEmptyAnalyze }

/-- A state with a non-empty analyze output. -/
def exStateWithAnalyze : ClientState :=
  { initialState with keyword := "cook", analyzeData := some exAnalyze }

/-- C1: the create stage sets status `'success'` iff the response's
`result` field is the boolean `true`; a `false` result or a thrown error
sets status `'failure'` and a non-null error message. -/
theorem create_status_spec (st : ClientState) (data : AnalyzeKeywordsOutput) :
    (∀ r : CreateGraphOutput,
      ((fetchCreateGraph st data (.ok r)).createStatus = CreateStatus.success
        ↔ r.result = true)
      ∧ (r.result = false →
          (fetchCreateGraph st data (.ok r)).createStatus = CreateStatus.failure
          ∧ (fetchCreateGraph st data (.ok r)).error ≠ none))
    ∧ (∀ e : FetchError,
        (fetchCreateGraph st data (.error e)).createStatus = CreateStatus.failure
        ∧ (fetchCreateGraph st data (.error e)).error ≠ none) := by
  constructor
  · intro r
    rcases r with ⟨b⟩
    cases b <;> simp [fetchCreateGraph]
  · intro e
    simp [fetchCreateGraph]

/-- C1 witness: at a concrete state, a `false` result yields failure with a
set error, and a thrown error yields failure. -/
theorem create_status_spec_witness :
    ((fetchCreateGraph exStateWithAnalyze exAnalyze
        (.ok { result := false })).createStatus = CreateStatus.failure
      ∧ (fetchCreateGraph exStateWithAnalyze exAnalyze
        (.ok { result := false })).error ≠ none)
    ∧ (fetchCreateGraph exStateWithAnalyze exAnalyze
        (.error (.otherErr none))).createStatus = CreateStatus.failure :=
  ⟨((create_status_spec exStateWithAnalyze exAnalyze).1 { result := false }).2 rfl,
   ((create_status_spec exStateWithAnalyze exAnalyze).2 (.otherErr none)).1⟩

/-- C2 counterexample: starting the create stage does not clear the
show-graph result — from a state holding a fetched graph,
`fetchCreateGraph`'s synchronous prefix leaves `graphData` non-null,
contradicting the claim that every later stage's result is set to null. -/
theorem create_begin_keeps_graph_cex :
    exStateWithGraph.graphData = some exGraph
    ∧ (fetchCreateGraphBegin exStateWithGraph).graphData ≠ none := by
  constructor
  · rfl
  · simp [fetchCreateGraphBegin, exStateWithGraph]

/-- C2 amended: starting candidate clears candidate, analyze and graph
results; starting analyze clears analyze and graph results and keeps the
candidate result; starting create only resets the status flag and the error
and keeps candidate, analyze and graph results; starting show-graph clears
the graph result and keeps candidate and analyze results; every stage start
resets the create-status flag to idle and clears the error. -/
theorem stage_begin_frame (st : ClientState) :
    ((fetchCandidateBegin st).candidateData = none
      ∧ (fetchCandidateBegin st).analyzeData = none
      ∧ (fetchCandidateBegin st).graphData = none
      ∧ (fetchCandidateBegin st).createStatus = CreateStatus.idle
      ∧ (fetchCandidateBegin st).error = none
      ∧ (fetchCandidateBegin st).keyword = st.keyword
      ∧ (fetchCandidateBegin st).maxDepth = st.maxDepth)
    ∧ ((fetchAnalyzeBegin st).candidateData = st.candidateData
      ∧ (fetchAnalyzeBegin st).analyzeData = none
      ∧ (fetchAnalyzeBegin st).graphData = none
      ∧ (fetchAnalyzeBegin st).createStatus = CreateStatus.idle
      ∧ (fetchAnalyzeBegin st).error = none)
    ∧ ((fetchCreateGraphBegin st).candidateData = st.candidateData
      ∧ (fetchCreateGraphBegin st).analyzeData = st.analyzeData
      ∧ (fetchCreateGraphBegin st).graphData = st.graphData
      ∧ (fetchCreateGraphBegin st).createStatus = CreateStatus.idle
      ∧ (fetchCreateGraphBegin st).error = none)
    ∧ ((fetchShowGraphBegin st).candidateData = st.candidateData
      ∧ (fetchShowGraphBegin st).analyzeData = st.analyzeData
      ∧ (fetchShowGraphBegin st).graphData = none
      ∧ (fetchShowGraphBegin st).createStatus = CreateStatus.idle
      ∧ (fetchShowGraphBegin st).error = none) := by
  refine ⟨⟨rfl, rfl, rfl, rfl, rfl, rfl, rfl⟩, ⟨rfl, rfl, rfl, rfl, rfl⟩,
    ⟨rfl, rfl, rfl, rfl, rfl⟩, ⟨rfl, rfl, rfl, rfl, rfl⟩⟩

/-- C3 counterexample: with every filter at its default (the initial state:
min score 0.5, entity type `'all'`, empty IAB text), the show-graph query
still contains the `min_score` parameter, contradicting the claim that
`min_score` appears only for a non-default value. -/
theorem min_score_always_sent_cex :
    initialState.minScore = 1/2
    ∧ "min_score" ∈ (showGraphParams "cook" initialState.maxDepth
        initialState.minScore initialState.entityTypeFilter
        initialState.iabCategoryFilter).map Prod.fst := by
  constructor
  · rfl
  · simp [showGraphParams, initialState]

/-- C3 amended: the show-graph query always contains `seed_keyword`,
`max_depth` and `min_score`; it contains `entity_type` exactly when the
entity filter is not `'all'` and `iab_category` exactly when the IAB filter
text is non-empty after trimming. -/
theorem show_graph_params_keys (kw : String) (depth : Int) (score : Rat)
    (entity : EntityTypeFilter) (iab : String) :
    "seed_keyword" ∈ (showGraphParams kw depth score entity iab).map Prod.fst
    ∧ "max_depth" ∈ (showGraphParams kw depth score entity iab).map Prod.fst
    ∧ "min_score" ∈ (showGraphParams kw depth score entity iab).map Prod.fst
    ∧ ("entity_type" ∈ (showGraphParams kw depth score entity iab).map Prod.fst
        ↔ entity ≠ EntityTypeFilter.all)
    ∧ ("iab_category" ∈ (showGraphParams kw depth score entity iab).map Prod.fst
        ↔ jsTrim iab ≠ "") := by
  unfold showGraphParams
  refine ⟨by simp, by simp, by simp, ?_, ?_⟩
  · by_cases h : entity = EntityTypeFilter.all
    · subst h; simp
    · simp [h]
  · by_cases h : jsTrim iab = ""
    · simp [h]
    · simp [h]

/-- C4 counterexample: in a state whose stored candidate response has an
empty candidate list (and nothing pending), the Analyze button is not
disabled — the `disabled` expression only tests `!candidateData` —
contradicting the claim that the trigger is disabled for an empty list. -/
theorem analyze_button_empty_candidates_cex :
    exStateEmptyCandidates.candidateData = some exEmptyCandidateResponse
    ∧ exEmptyCandidateResponse.candidates = []
    ∧ analyzeButtonDisabled exStateEmptyCandidates = false := by
  exact ⟨rfl, rfl, rfl⟩

/-- C4 amended: the Analyze trigger is disabled whenever the stored
candidate data is null; when candidate data exists but its candidate list
is empty the trigger is enabled, yet invoking the handler issues no analyze
request and only sets the error message; a request is issued exactly when
candidate data exists with at least one candidate. -/
theorem analyze_gate (st : ClientState) :
    (st.candidateData = none → analyzeButtonDisabled st = true)
    ∧ (∀ cd : CandidateResponse, st.candidateData = some cd →
        cd.candidates.length = 0 →
        handleAnalyze st = ({ st with error := some analyzeGuardMsg }, none))
    ∧ ((handleAnalyze st).2 ≠ none ↔
        ∃ cd : CandidateResponse, st.candidateData = some cd
          ∧ cd.candidates.length ≠ 0) := by
  refine ⟨?_, ?_, ?_⟩
  · intro h
    simp [analyzeButtonDisabled, h]
  · intro cd hcd hlen
    simp [handleAnalyze, hcd, hlen]
  · cases h : st.candidateData with
    | none => simp [handleAnalyze, h]
    | some cd =>
      by_cases hlen : cd.candidates.length = 0
      · simp [handleAnalyze, h, hlen]
        exact List.length_eq_zero.mp hlen
      · simp [handleAnalyze, h, hlen]
        intro hnil
        exact hlen (by simp [hnil])

/-- C4 witness: concrete uses of the three conjuncts — the initial state has
null candidate data hence a disabled trigger, and the empty-list state
yields no request, only the guard error. -/
theorem analyze_gate_witness :
    analyzeButtonDisabled initialState = true
    ∧ handleAnalyze exStateEmptyCandidates
        = ({ exStateEmptyCandidates with error := some analyzeGuardMsg }, none) :=
  ⟨(analyze_gate initialState).1 rfl,
   (analyze_gate exStateEmptyCandidates).2.1 exEmptyCandidateResponse rfl rfl⟩

/-- C5 counterexample: in a state whose stored analyze output has an empty
results list (and nothing pending), the Create Graph button is not disabled
— the `disabled` expression only tests `!analyzeData` — contradicting the
claim that the trigger is disabled for an empty list. -/
theorem create_button_empty_results_cex :
    exStateEmptyAnalyze.analyzeData = some exEmptyAnalyze
    ∧ exEmptyAnalyze.results = []
    ∧ createGraphButtonDisabled exStateEmptyAnalyze = false := by
  exact ⟨rfl, rfl, rfl⟩

/-- C5 amended: the Create Graph trigger is disabled whenever the stored
analyze data is null; when analyze data exists but its results list is
empty the trigger is enabled, yet invoking the handler issues no create
request and only sets the error message; a request is issued exactly when
analyze data exists with at least one result. -/
theorem create_gate (st : ClientState) :
    (st.analyzeData = none → createGraphButtonDisabled st = true)
    ∧ (∀ ad : AnalyzeKeywordsOutput, st.analyzeData = some ad →
        ad.results.length = 0 →
        handleCreateGraph st = ({ st with error := some createGuardMsg }, none))
    ∧ ((handleCreateGraph st).2 ≠ none ↔
        ∃ ad : AnalyzeKeywordsOutput, st.analyzeData = some ad
          ∧ ad.results.length ≠ 0) := by
  refine ⟨?_, ?_, ?_⟩
  · intro h
    simp [createGraphButtonDisabled, h]
  · intro ad had hlen
    simp [handleCreateGraph, had, hlen]
  · cases h : st.analyzeData with
    | none => simp [handleCreateGraph, h]
    | some ad =>
      by_cases hlen : ad.results.length = 0
      · simp [handleCreateGraph, h, hlen]
        exact List.length_eq_zero.mp hlen
      · simp [handleCreateGraph, h, hlen]
        intro hnil
        exact hlen (by simp [hnil])

/-- C5 witness: the initial state has null analyze data hence a disabled
trigger, and the empty-results state yields no request, only the guard
error. -/
theorem create_gate_witness :
    createGraphButtonDisabled initialState = true
    ∧ handleCreateGraph exStateEmptyAnalyze
        = ({ exStateEmptyAnalyze with error := some createGuardMsg }, none) :=
  ⟨(create_gate initialState).1 rfl,
   (create_gate exStateEmptyAnalyze).2.1 exEmptyAnalyze rfl rfl⟩

/-- C6: with a keyword that is non-empty after trimming the show-graph
handler issues the request with the current filter values, regardless of
any stored stage results; with a trimmed-empty keyword it issues no request
and sets an error message. -/
theorem show_graph_gate (st : ClientState) :
    (jsTrim st.keyword ≠ "" →
      handleShowGraph st
        = (st, some { seedKeyword := st.keyword, depth := st.maxDepth,
                      score := st.minScore, entity := st.entityTypeFilter,
                      iab := st.iabCategoryFilter }))
    ∧ (jsTrim st.keyword = "" →
      handleShowGraph st
        = ({ st with error := some showGraphGuardMsg }, none)) := by
  constructor
  · intro h
    simp [handleShowGraph, h]
  · intro h
    simp [handleShowGraph, h]

/-- C6 witness: the graph-holding state (non-blank keyword, no candidate or
analyze data) issues the request, and the initial state (blank keyword)
does not. -/
theorem show_graph_gate_witness :
    (handleShowGraph exStateWithGraph
      = (exStateWithGraph,
         some { seedKeyword := "cook", depth := 2, score := 1/2,
                entity := EntityTypeFilter.all, iab := "" }))
    ∧ handleShowGraph initialState
        = ({ initialState with error := some showGraphGuardMsg }, none) :=
  ⟨(show_graph_gate exStateWithGraph).1 (by decide),
   (show_graph_gate initialState).2 rfl⟩

/-- C7 counterexample: in the earlier client (src/app/src/app/page.tsx) the
analyze POST is configured with no timeout at all, contradicting the claim
that the analyze call carries an explicit 120000 ms timeout. -/
theorem page_tsx_analyze_no_timeout_cex :
    pageTsxAnalyzeConfig.timeout = none
    ∧ pageTsxAnalyzeConfig.timeout ≠ some 120000 := by
  exact ⟨rfl, by decide⟩

/-- C7 amended: in the later client (src/unnamed/part_001) only the analyze
request carries an explicit timeout and it is exactly 120000 ms, while the
candidate, create and show-graph requests carry none; in the earlier client
(src/app/src/app/page.tsx) none of the four requests carries a timeout. -/
theorem timeout_config :
    part001AnalyzeConfig.timeout = some 120000
    ∧ part001CandidateConfig.timeout = none
    ∧ part001CreateConfig.timeout = none
    ∧ part001ShowGraphConfig.timeout = none
    ∧ pageTsxCandidateConfig.timeout = none
    ∧ pageTsxAnalyzeConfig.timeout = none
    ∧ pageTsxCreateConfig.timeout = none
    ∧ pageTsxShowGraphConfig.timeout = none := by
  exact ⟨rfl, rfl, rfl, rfl, rfl, rfl, rfl, rfl⟩

/-- C8: for a stored candidate response with at least one candidate, the
analyze request body is exactly the response's `seed_keyword` together with
the candidates' snippet titles, one string per candidate and in the same
order. -/
theorem analyze_payload_spec (st : ClientState) (cd : CandidateResponse)
    (hcd : st.candidateData = some cd) (hne : cd.candidates ≠ []) :
    ∃ p : AnalyzePayload, (handleAnalyze st).2 = some p
      ∧ p.seed_keyword = cd.seed_keyword
      ∧ p.children.length = cd.candidates.length
      ∧ ∀ i : Nat, p.children[i]?
          = (cd.candidates[i]?).map (fun c => c.snippet.title) := by
  have hlen : cd.candidates.length ≠ 0 := by
    intro h0
    exact hne (List.length_eq_zero.mp h0)
  refine ⟨{ seed_keyword := cd.seed_keyword
            children := cd.candidates.map (fun c => c.snippet.title) },
    ?_, rfl, ?_, ?_⟩
  · simp [handleAnalyze, hcd, hlen]
  · simp
  · intro i
    simp [List.getElem?_map]

/-- C8 witness: at the state holding one fetched candidate, the issued
payload carries the seed keyword and that candidate's title. -/
theorem analyze_payload_spec_witness :
    ∃ p : AnalyzePayload, (handleAnalyze exStateWithCandidates).2 = some p
      ∧ p.seed_keyword = exCandidateResponse.seed_keyword
      ∧ p.children.length = exCandidateResponse.candidates.length
      ∧ ∀ i : Nat, p.children[i]?
          = (exCandidateResponse.candidates[i]?).map (fun c => c.snippet.title) :=
  analyze_payload_spec exStateWithCandidates exCandidateResponse rfl (by decide)

/-- C9: the max-depth state starts at 2, the change handler maps any input
to a non-negative value whenever the current value is non-negative (only
parsed values `>= 0` are accepted, the empty input resets to 0, everything
else keeps the current value), hence any sequence of inputs leaves it
non-negative, and the show-graph request sends exactly that state value as
`max_depth`. -/
theorem max_depth_invariant :
    initialState.maxDepth = 2
    ∧ (∀ (input : String) (cur : Int), 0 ≤ cur →
        0 ≤ handleMaxDepthChange input cur)
    ∧ (∀ inputs : List String, 0 ≤
        inputs.foldl (fun c i => handleMaxDepthChange i c) initialState.maxDepth)
    ∧ (∀ (st : ClientState) (a : ShowGraphArgs), 0 ≤ st.maxDepth →
        (handleShowGraph st).2 = some a → 0 ≤ a.depth) := by
  have hstep : ∀ (input : String) (cur : Int), 0 ≤ cur →
      0 ≤ handleMaxDepthChange input cur := by
    intro input cur hcur
    unfold handleMaxDepthChange
    cases jsParseInt10 input with
    | none => split <;> omega
    | some v =>
      simp only
      split
      · assumption
      · split <;> omega
  refine ⟨rfl, hstep, ?_, ?_⟩
  · intro inputs
    have hgen : ∀ (l : List String) (c : Int), 0 ≤ c →
        0 ≤ l.foldl (fun c i => handleMaxDepthChange i c) c := by
      intro l
      induction l with
      | nil => intro c hc; simpa using hc
      | cons x xs ih =>
        intro c hc
        simpa using ih (handleMaxDepthChange x c) (hstep x c hc)
    exact hgen inputs initialState.maxDepth (by decide)
  · intro st a hd ha
    unfold handleShowGraph at ha
    split at ha
    · cases ha
    · cases ha
      exact hd

/-- C9 witness: from the initial depth 2, the inputs "5", "abc", "-3", ""
leave the state at 0 — still non-negative — and the show-graph call from a
state with that depth sends a non-negative `max_depth`. -/
theorem max_depth_invariant_witness :
    (0:Int) ≤ handleMaxDepthChange "-3" 5
    ∧ (0:Int) ≤ ["5", "abc", "-3", ""].foldl
        (fun c i => handleMaxDepthChange i c) initialState.maxDepth
    ∧ (0:Int) ≤ (ShowGraphArgs.mk "cook" 2 (1/2) EntityTypeFilter.all "").depth :=
  ⟨max_depth_invariant.2.1 "-3" 5 (by decide),
   max_depth_invariant.2.2.1 ["5", "abc", "-3", ""],
   max_depth_invariant.2.2.2 exStateWithGraph
     (ShowGraphArgs.mk "cook" 2 (1/2) EntityTypeFilter.all "")
     (by decide) rfl⟩

/-- C10: when a stage's request throws, the stage's stored result stays the
null it was given at fetch start, and relative to the start-of-fetch state
the catch branch changes only the error message (and, for create, sets the
failure status flag). -/
theorem fetch_failure_frame (st : ClientState) (e : FetchError) (kw : String)
    (seedKeyword : String) (titles : List String)
    (data : AnalyzeKeywordsOutput) (depth : Int) (score : Rat)
    (entity : EntityTypeFilter) (iab : String) :
    (fetchCandidate st kw (.error e)
        = { fetchCandidateBegin st with
            error := some (handleAxiosError e "Candidate") }
      ∧ (fetchCandidate st kw (.error e)).candidateData = none)
    ∧ (fetchAnalyze st seedKeyword titles (.error e)
        = { fetchAnalyzeBegin st with
            error := some (handleAxiosError e "Analyze") }
      ∧ (fetchAnalyze st seedKeyword titles (.error e)).analyzeData = none)
    ∧ (fetchCreateGraph st data (.error e)
        = { fetchCreateGraphBegin st with
            createStatus := CreateStatus.failure
            error := some (handleAxiosError e "Create Graph") })
    ∧ (fetchShowGraph st seedKeyword depth score entity iab (.error e)
        = { fetchShowGraphBegin st with
            error := some (handleAxiosError e "Show Graph") }
      ∧ (fetchShowGraph st seedKeyword depth score entity iab
          (.error e)).graphData = none) := by
  exact ⟨⟨rfl, rfl⟩, ⟨rfl, rfl⟩, rfl, ⟨rfl, rfl⟩⟩

end Kw2graph
